import Mathlib

/-!
Shallow embedding of `src/main.py` (matchering-mx audio post-processing
worker) and verification of its orchestration contract.

The embedding models:
  * `wait_for_file`  — the S3 existence-polling loop (lines 62-78);
  * `mix_tracks`     — the pydub mixing step over abstract audio buffers
                       (lines 118-133);
  * `lambda_handler` — the whole handler (lines 154-220), with the S3 /
                       webhook / filesystem environment abstracted into an
                       explicit `World` of operation outcomes, and every
                       Python exception modelled as an `Err` value.
-/

/-- Outcome of one `s3_client.head_object` probe, as distinguished by the
`except botocore.exceptions.ClientError` branch of `wait_for_file`
(src/main.py lines 67-76): success, a ClientError with code `'404'`
(keep polling), or any other ClientError (re-raised with message `m`). -/
inductive Probe where
  | found
  | notFound
  | clientError (m : String)
deriving Repr, DecidableEq

/-- Result of the `wait_for_file` loop: a normal `return` value, a re-raised
exception, or divergence (the loop never exits; only reachable when the
poll interval is `0`, modelled via fuel exhaustion). -/
inductive WaitResult where
  | ret (b : Bool)
  | raise (m : String)
  | diverge
deriving Repr, DecidableEq

/-- The `while elapsed_time < timeout` loop of `wait_for_file`
(src/main.py lines 64-78).  `probe k` is the outcome of the `k`-th
`head_object` call on the polled key; the second component of the result
counts the probes actually performed.  `fuel` bounds the number of loop
iterations so the function is total; with `interval ≥ 1` a fuel of
`timeout + 1` is never exhausted (proved below). -/
def waitLoop (probe : Nat → Probe) (timeout interval : Nat) :
    Nat → Nat → Nat → WaitResult × Nat
  | 0, elapsed, k =>
      if elapsed < timeout then (.diverge, k) else (.ret false, k)
  | fuel + 1, elapsed, k =>
      if elapsed < timeout then
        match probe k with
        | .found => (.ret true, k + 1)
        | .notFound => waitLoop probe timeout interval fuel (elapsed + interval) (k + 1)
        | .clientError m => (.raise m, k + 1)
      else (.ret false, k)

/-- `wait_for_file(bucket, key, s3_client, timeout=10, interval=5)`
(src/main.py lines 62-78).  The bucket/key/client triple is folded into the
probe function; `elapsed_time` starts at `0`.  Fuel `timeout + 1` is enough
iterations whenever `interval ≥ 1` (each 404 iteration adds `interval ≥ 1`
to `elapsed_time`), so `.diverge` can only arise for `interval = 0`,
matching the real loop's non-termination there. -/
def wait_for_file (probe : Nat → Probe) (timeout interval : Nat) : WaitResult × Nat :=
  waitLoop probe timeout interval (timeout + 1) 0 0

/-- Decoded PCM audio as pydub's `AudioSegment` presents it: a duration
(in milliseconds) and a sample amplitude at each instant. -/
structure AudioSegment where
  len : Nat
  samp : Nat → Int

/-- `AudioSegment.silent(duration=d)`: `d` units of zero amplitude. -/
def AudioSegment.silent (duration : Nat) : AudioSegment :=
  ⟨duration, fun _ => 0⟩

/-- pydub `+` concatenation: `a` followed by `b`. -/
def AudioSegment.append (a b : AudioSegment) : AudioSegment :=
  ⟨a.len + b.len, fun t => if t < a.len then a.samp t else b.samp (t - a.len)⟩

/-- pydub slicing `a[:n]` (clamped to the segment's own length). -/
def AudioSegment.take (a : AudioSegment) (n : Nat) : AudioSegment :=
  ⟨min n a.len, a.samp⟩

/-- pydub `a.overlay(b)`: the result keeps `a`'s duration; over the common
support the amplitudes combine additively, beyond it `a` plays alone. -/
def AudioSegment.overlay (a b : AudioSegment) : AudioSegment :=
  ⟨a.len, fun t => if t < min a.len b.len then a.samp t + b.samp t else a.samp t⟩

/-- `mix_tracks` (src/main.py lines 118-133), happy path: pad the vocals
with trailing silence when shorter than the instrumental, truncate them
when longer, then overlay.  (The Python wraps this in `try/except` and
returns `None` on decode failure; that failure path is modelled in the
handler below via `World.mixOk`.) -/
def mix_tracks (vocals instrumental : AudioSegment) : AudioSegment :=
  let vocals :=
    if vocals.len < instrumental.len then
      vocals.append (AudioSegment.silent (instrumental.len - vocals.len))
    else if instrumental.len < vocals.len then
      vocals.take instrumental.len
    else vocals
  vocals.overlay instrumental

/-- The JSON payload built by `notify_system_api` (src/main.py lines 135-152)
and POSTed to the webhook.  `songID` is `Option Int` because the handler's
`song_id` variable can hold Python `None` (when a parsed body lacks the
`songID` field). -/
structure StatusEvent where
  songID : Option Int
  stage : String
  action : String
  fileName : Option String
  errMsg : Option String
deriving Repr, DecidableEq

/-- The parsed JSON body of one queue record: `body.get("songID")`,
`body.get("fileName")`, `body.get("trackID")` (src/main.py lines 166-168);
`none` models an absent field. -/
structure JobBody where
  songID : Option Int
  fileName : Option String
  trackID : Option Int
deriving Repr, DecidableEq

/-- One entry of `event['Records']`.  `body` is the result of
`json.loads(record['body'])`: `.ok` a parsed body, `.error m` a
`json.JSONDecodeError` (a `ValueError`) with message `m`. -/
structure JobRecord where
  body : Except String JobBody
deriving Repr

/-- A Python exception as raised inside the handler: `ValueError(msg)`,
a plain `Exception(msg)`, a re-raised botocore `ClientError`, or `hang`,
the pseudo-outcome standing for a non-terminating `wait_for_file` loop
(never used by the handler, which always polls with `interval = 5`). -/
inductive Err where
  | valueError (msg : String)
  | exception (msg : String)
  | clientError (msg : String)
  | hang
deriving Repr, DecidableEq

/-- Python `str(e)` as used for the error StatusEvent's `errMsg`. -/
def Err.msg : Err → String
  | .valueError m => m
  | .exception m => m
  | .clientError m => m
  | .hang => ""

/-- Outcomes of every external effect the handler performs, fixed up front:
`probe key k` is the `k`-th `head_object` outcome for `key`; `download key`
is `none` on success or `some m` when `download_file` raises with message
`m`; `mixOk` says whether `mix_tracks` returns a segment (vs `None`);
`master`/`upload` are `none` on success or a raised message; `removeOk p`
says whether `os.remove(p)` succeeds during cleanup. -/
structure World where
  probe : String → Nat → Probe
  download : String → Option String
  mixOk : Bool
  master : Option String
  upload : Option String
  removeOk : String → Bool

/-- The observable state threaded through one handler invocation:
the `song_id` variable (line 159, updated line 166), the
`LAMBDA_STATIC_INSTRUMENTAL_WAV_PATH` global (`none` = still undefined),
the StatusEvent payloads built so far, the local files currently on disk,
the `download_file` calls attempted (S3 key, local target path), the
uploads performed (local path, S3 key) and the number of
`TRACK_FILENAMES` catalog lookups performed. -/
structure HState where
  song_id : Option Int
  instrPath : Option String
  events : List StatusEvent
  fs : List String
  downloads : List (String × String)
  uploads : List (String × String)
  catalogLookups : Nat
deriving Repr, DecidableEq

/-- The handler's state at entry: `song_id = 0` (line 159), nothing staged,
no events emitted. -/
def initState : HState :=
  { song_id := some 0, instrPath := none, events := [], fs := [],
    downloads := [], uploads := [], catalogLookups := 0 }

/-- Module constant (src/main.py line 29). -/
def LAMBDA_STATIC_REFERENCE_WAV_PATH : String := "static/audio/reference.wav"

/-- Module constant (src/main.py line 30): a fixed path shared by all Jobs. -/
def LOCAL_REFERENCE_PATH : String := "/tmp/reference.wav"

/-- Module constant (src/main.py line 31): a fixed path shared by all Jobs. -/
def LOCAL_INSTRUMENTAL_PATH : String := "/tmp/instrumental.wav"

/-- Module global (src/main.py line 32).  It is initialised to `None` and
never reassigned: the handler assigns the distinct local variable
`local_final_file` (line 178), not this global. -/
def LOCAL_FINAL_FILE : Option String := none

/-- Module global (src/main.py line 33).  It is initialised to `None` and
never reassigned: the handler assigns the distinct local variable
`local_vocals_path` (line 179), not this global. -/
def LOCAL_VOCALS_PATH : Option String := none

/-- Python f-string interpolation of the handler's `song_id` value
(`None` prints as `"None"`, integers in decimal). -/
def pyStr : Option Int → String
  | none => "None"
  | some n => toString n

/-- Python f-string interpolation of the handler's `file_name` value. -/
def pyStrS : Option String → String
  | none => "None"
  | some s => s

/-- The `TRACK_FILENAMES` dictionary of `get_dynamic_s3_paths`
(src/main.py lines 37-41). -/
def TRACK_FILENAMES : Int → Option String := fun track_id =>
  if track_id = 1 then some "pop_track1.wav"
  else if track_id = 2 then some "norteno_track2.wav"
  else if track_id = 3 then some "urbano_track3.wav"
  else none

/-- `get_dynamic_s3_paths` (src/main.py lines 35-45): look the track up in
`TRACK_FILENAMES` and raise `ValueError(f"Invalid trackID: {track_id}")`
when the result is falsy (absent, or an empty string). -/
def get_dynamic_s3_paths (track_id : Int) : Except Err String :=
  match TRACK_FILENAMES track_id with
  | none => .error (.valueError ("Invalid trackID: " ++ toString track_id))
  | some track_filename =>
      if track_filename = "" then
        .error (.valueError ("Invalid trackID: " ++ toString track_id))
      else .ok ("static/audio/" ++ track_filename)

/-- `notify_system_api` (src/main.py lines 135-152): builds the payload and
POSTs it; any `requests.exceptions.RequestException` is caught and logged,
so the call never raises and only the payload is observable. -/
def notify_system_api (st : HState) (song_id : Option Int) (stage action : String)
    (file_name err_msg : Option String) : HState :=
  { st with events := st.events ++
      [{ songID := song_id, stage := stage, action := action,
         fileName := file_name, errMsg := err_msg }] }

/-- `download_file_from_s3` (src/main.py lines 80-88): records the attempt;
on success the local target file comes into existence, on failure the
underlying exception is re-raised. -/
def download_file_from_s3 (w : World) (st : HState) (key localPath : String) :
    HState × Option Err :=
  match w.download key with
  | none =>
      ({ st with downloads := st.downloads ++ [(key, localPath)],
                 fs := st.fs ++ [localPath] }, none)
  | some m =>
      ({ st with downloads := st.downloads ++ [(key, localPath)] },
       some (.exception m))

/-- One `if wait_for_file(...): download... else: raise Exception(failMsg)`
block of the handler (src/main.py lines 185-198), with the default
`timeout=10, interval=5`. -/
def stage_asset (w : World) (st : HState) (key localPath failMsg : String) :
    HState × Option Err :=
  match (wait_for_file (w.probe key) 10 5).1 with
  | .ret true => download_file_from_s3 w st key localPath
  | .ret false => (st, some (.exception failMsg))
  | .raise m => (st, some (.clientError m))
  | .diverge => (st, some .hang)

/-- `process_files` (src/main.py lines 90-116): mix (a `None` result raises
`ValueError("Failed to mix audio tracks.")`), then master via
`mg.process`, which writes the final output file on success and raises on
failure. -/
def process_files (w : World) (st : HState) (output_path : String) :
    HState × Option Err :=
  if w.mixOk then
    match w.master with
    | none => ({ st with fs := st.fs ++ [output_path] }, none)
    | some m => (st, some (.exception m))
  else (st, some (.valueError "Failed to mix audio tracks."))

/-- `upload_file_to_s3` (src/main.py lines 52-60): records the upload and
re-raises any failure. -/
def upload_file_to_s3 (w : World) (st : HState) (local_file key : String) :
    HState × Option Err :=
  match w.upload with
  | none => ({ st with uploads := st.uploads ++ [(local_file, key)] }, none)
  | some m => (st, some (.exception m))

/-- Python statement sequencing under exceptions: run `f` only when the
previous step did not raise. -/
def andThen (p : HState × Option Err) (f : HState → HState × Option Err) :
    HState × Option Err :=
  match p with
  | (st, none) => f st
  | (st, some e) => (st, some e)

/-- The part of the record-loop body that follows the start notification
(src/main.py lines 185-204): stage the reference, instrumental and vocals
assets (`a1/b1 … a3/b3` are the S3 key / local path pairs, `c1 … c3` the
messages of the exceptions raised on timeout), mix+master into `outp`,
upload `outp` to `upkey`, and emit the end event naming `endfn`. -/
def pipelineAfterStart (w : World) (a1 b1 c1 a2 b2 c2 a3 b3 c3 outp upkey : String)
    (sid : Option Int) (endfn : String) (st : HState) : HState × Option Err :=
  andThen (stage_asset w st a1 b1 c1) fun st =>
  andThen (stage_asset w st a2 b2 c2) fun st =>
  andThen (stage_asset w st a3 b3 c3) fun st =>
  andThen (process_files w st outp) fun st =>
  andThen (upload_file_to_s3 w st outp upkey) fun st =>
  (notify_system_api st sid "matchering" "end" (some endfn) none, none)

/-- The body of the `for record in event['Records']` loop (src/main.py
lines 164-204) for one record: parse the body, validate/resolve the track,
emit the start event, then run `pipelineAfterStart`.  The second component
is the exception escaping this record's processing, if any. -/
def handleRecord (w : World) (st : HState) (r : JobRecord) : HState × Option Err :=
  match r.body with
  | .error m => (st, some (.valueError m))
  | .ok body =>
    let st := { st with song_id := body.songID }
    let file_name := body.fileName
    match body.trackID with
    | none => (st, some (.valueError "Region or track ID is missing."))
    | some track_id =>
      if track_id = 0 then
        (st, some (.valueError "Region or track ID is missing."))
      else
        match get_dynamic_s3_paths track_id with
        | .error e => ({ st with catalogLookups := st.catalogLookups + 1 }, some e)
        | .ok instrKey =>
          let st := { st with catalogLookups := st.catalogLookups + 1,
                              instrPath := some instrKey }
          if instrKey = "" then
            (st, some (.valueError "LAMBDA_STATIC_INSTRUMENTAL_WAV_PATH is not set."))
          else
            let local_final_file := "/tmp/final_song_" ++ pyStr body.songID ++ ".wav"
            let local_vocals_path := "/tmp/vocals_" ++ pyStr body.songID ++ ".wav"
            let lambda_vocals_path := "utau_inference/" ++ pyStrS file_name
            let st := notify_system_api st body.songID "matchering" "start" none none
            pipelineAfterStart w
              LAMBDA_STATIC_REFERENCE_WAV_PATH LOCAL_REFERENCE_PATH
                "Reference file not available within timeout"
              instrKey LOCAL_INSTRUMENTAL_PATH
                "Instrumental file not available within timeout"
              lambda_vocals_path local_vocals_path
                ("Vocals file not available: " ++ lambda_vocals_path)
              local_final_file
              ("matchering/final_song_" ++ pyStr body.songID ++ "_" ++
                toString track_id ++ ".wav")
              body.songID
              ("final_song_" ++ pyStr body.songID ++ "_" ++
                toString track_id ++ ".wav")
              st

/-- The `for` loop over `event['Records']`: records are processed in order
and the first escaping exception aborts the rest of the loop. -/
def handleRecords (w : World) (st : HState) : List JobRecord → HState × Option Err
  | [] => (st, none)
  | r :: rs =>
      match handleRecord w st r with
      | (st1, none) => handleRecords w st1 rs
      | (st1, some e) => (st1, some e)

/-- The list the cleanup loop iterates over (src/main.py line 212):
the two `None` module globals followed by the two fixed constants. -/
def cleanupPaths : List (Option String) :=
  [LOCAL_VOCALS_PATH, LOCAL_FINAL_FILE,
   some LOCAL_REFERENCE_PATH, some LOCAL_INSTRUMENTAL_PATH]

/-- One iteration of the cleanup loop (src/main.py lines 212-218):
`if file_path and os.path.exists(file_path): try: os.remove(...)`. A falsy
(`None`) entry is skipped; a failed remove is logged and the file stays. -/
def cleanupStep (w : World) (fs : List String) (p : Option String) : List String :=
  match p with
  | none => fs
  | some path =>
      if fs.contains path then
        (if w.removeOk path then fs.erase path else fs)
      else fs

/-- The whole `finally` cleanup block over `cleanupPaths`. -/
def cleanup (w : World) (fs : List String) : List String :=
  cleanupPaths.foldl (cleanupStep w) fs

/-- Result of one handler invocation: `completed = false` only when the
modelled execution diverges inside a polling loop (in which case neither
the error notification nor the cleanup runs). -/
structure HOut where
  completed : Bool
  st : HState
deriving Repr, DecidableEq

/-- `lambda_handler` (src/main.py lines 154-220): run the record loop under
the `try`; on an escaping exception emit one error StatusEvent carrying the
current `song_id` and `str(e)`; `finally`, run the cleanup loop. -/
def lambda_handler (w : World) (records : List JobRecord) : HOut :=
  match handleRecords w initState records with
  | (st1, none) =>
      { completed := true, st := { st1 with fs := cleanup w st1.fs } }
  | (st1, some .hang) => { completed := false, st := st1 }
  | (st1, some e) =>
      let st2 := notify_system_api st1 st1.song_id "matchering" "error" none
        (some e.msg)
      { completed := true, st := { st2 with fs := cleanup w st2.fs } }

/-- Number of StatusEvents in `evs` whose `action` field is `a`. -/
def countAction (evs : List StatusEvent) (a : String) : Nat :=
  (evs.filter (fun e => e.action == a)).length

/-- Environment in which every probe finds its object immediately and every
download, mix, master, upload and remove succeeds. -/
def allGood : World :=
  { probe := fun _ _ => .found, download := fun _ => none, mixOk := true,
    master := none, upload := none, removeOk := fun _ => true }

/-- A record whose body parsed to `{songID, fileName, trackID}`. -/
def mkRecord (songID : Option Int) (fileName : Option String)
    (trackID : Option Int) : JobRecord :=
  ⟨.ok ⟨songID, fileName, trackID⟩⟩

lemma countAction_nil (a : String) : countAction [] a = 0 := rfl

lemma countAction_append (l1 l2 : List StatusEvent) (a : String) :
    countAction (l1 ++ l2) a = countAction l1 a + countAction l2 a := by
  simp [countAction, List.filter_append]

lemma countAction_single (e : StatusEvent) (a : String) :
    countAction [e] a = if e.action == a then 1 else 0 := by
  simp only [countAction, List.filter]
  by_cases h : e.action == a <;> simp [h]

lemma waitLoop_snd_ge (probe : Nat → Probe) (timeout interval : Nat) :
    ∀ fuel elapsed k, k ≤ (waitLoop probe timeout interval fuel elapsed k).2 := by
  intro fuel
  induction fuel with
  | zero =>
      intro elapsed k
      by_cases h : elapsed < timeout <;> simp [waitLoop, h]
  | succ fuel ih =>
      intro elapsed k
      by_cases h : elapsed < timeout
      · simp only [waitLoop, if_pos h]
        rcases hp : probe k with _ | _ | m <;> simp only []
        · exact Nat.le_succ k
        · exact Nat.le_trans (Nat.le_succ k) (ih (elapsed + interval) (k + 1))
        · exact Nat.le_succ k
      · simp [waitLoop, h]

lemma waitLoop_no_diverge (probe : Nat → Probe) (timeout interval : Nat) :
    ∀ fuel elapsed k, timeout ≤ elapsed + fuel * interval →
      (waitLoop probe timeout interval fuel elapsed k).1 ≠ WaitResult.diverge := by
  intro fuel
  induction fuel with
  | zero =>
      intro elapsed k hfuel
      have h : ¬ elapsed < timeout := by omega
      simp [waitLoop, h]
  | succ fuel ih =>
      intro elapsed k hfuel
      by_cases h : elapsed < timeout
      · simp only [waitLoop, if_pos h]
        rcases hp : probe k with _ | _ | m <;> simp only []
        · intro hcon; exact WaitResult.noConfusion hcon
        · apply ih (elapsed + interval) (k + 1)
          have h2 : (fuel + 1) * interval = fuel * interval + interval := by ring
          omega
        · intro hcon; exact WaitResult.noConfusion hcon
      · simp [waitLoop, h]

lemma wait_for_file_no_diverge (probe : Nat → Probe) (timeout interval : Nat)
    (hi : 1 ≤ interval) :
    (wait_for_file probe timeout interval).1 ≠ WaitResult.diverge := by
  apply waitLoop_no_diverge probe timeout interval
  have : timeout + 1 ≤ (timeout + 1) * interval :=
    Nat.le_mul_of_pos_right (timeout + 1) hi
  omega

lemma waitLoop_ret_true_iff (probe : Nat → Probe) (timeout interval : Nat)
    (hne : ∀ k m, probe k ≠ Probe.clientError m) :
    ∀ fuel k, timeout ≤ k * interval + fuel * interval →
      ((waitLoop probe timeout interval fuel (k * interval) k).1 = WaitResult.ret true ↔
        ∃ j, k ≤ j ∧ j * interval < timeout ∧ probe j = Probe.found) := by
  intro fuel
  induction fuel with
  | zero =>
      intro k hfuel
      have h : ¬ k * interval < timeout := by omega
      simp only [waitLoop, if_neg h]
      constructor
      · intro hcon; exact absurd hcon (by simp)
      · rintro ⟨j, hkj, hjt, _⟩
        exact absurd hjt (by have := Nat.mul_le_mul_right interval hkj; omega)
  | succ fuel ih =>
      intro k hfuel
      by_cases h : k * interval < timeout
      · simp only [waitLoop, if_pos h]
        rcases hp : probe k with _ | _ | m
        · simp only []
          constructor
          · intro _; exact ⟨k, Nat.le_refl k, h, hp⟩
          · intro _; trivial
        · simp only []
          have harith : k * interval + interval = (k + 1) * interval := by ring
          have hfuel' : timeout ≤ (k + 1) * interval + fuel * interval := by
            have h1 : (k + 1) * interval = k * interval + interval := by ring
            have h2 : (fuel + 1) * interval = fuel * interval + interval := by ring
            omega
          rw [harith, ih (k + 1) hfuel']
          constructor
          · rintro ⟨j, hj, hjt, hjf⟩; exact ⟨j, by omega, hjt, hjf⟩
          · rintro ⟨j, hj, hjt, hjf⟩
            rcases Nat.eq_or_lt_of_le hj with heq | hlt2
            · rw [← heq] at hjf; rw [hp] at hjf; exact absurd hjf (by simp)
            · exact ⟨j, hlt2, hjt, hjf⟩
        · exact absurd hp (hne k m)
      · simp only [waitLoop, if_neg h]
        constructor
        · intro hcon; exact absurd hcon (by simp)
        · rintro ⟨j, hkj, hjt, _⟩
          exact absurd hjt (by have := Nat.mul_le_mul_right interval hkj; omega)

lemma waitLoop_ret_shape (probe : Nat → Probe) (timeout interval : Nat)
    (hne : ∀ k m, probe k ≠ Probe.clientError m) :
    ∀ fuel k, timeout ≤ k * interval + fuel * interval →
      ∃ b, (waitLoop probe timeout interval fuel (k * interval) k).1 =
        WaitResult.ret b := by
  intro fuel
  induction fuel with
  | zero =>
      intro k hfuel
      have h : ¬ k * interval < timeout := by omega
      exact ⟨false, by simp [waitLoop, h]⟩
  | succ fuel ih =>
      intro k hfuel
      by_cases h : k * interval < timeout
      · simp only [waitLoop, if_pos h]
        rcases hp : probe k with _ | _ | m
        · exact ⟨true, by simp only []⟩
        · simp only []
          have harith : k * interval + interval = (k + 1) * interval := by ring
          have hfuel' : timeout ≤ (k + 1) * interval + fuel * interval := by
            have h1 : (k + 1) * interval = k * interval + interval := by ring
            have h2 : (fuel + 1) * interval = fuel * interval + interval := by ring
            omega
          rw [harith]
          exact ih (k + 1) hfuel'
        · exact absurd hp (hne k m)
      · exact ⟨false, by simp [waitLoop, h]⟩

lemma wait_for_file_fuel_ok (timeout interval : Nat) (hi : 1 ≤ interval) :
    timeout ≤ 0 * interval + (timeout + 1) * interval := by
  have : timeout + 1 ≤ (timeout + 1) * interval :=
    Nat.le_mul_of_pos_right (timeout + 1) hi
  omega

lemma wait_for_file_probes_pos (probe : Nat → Probe) (timeout interval : Nat)
    (ht : 1 ≤ timeout) :
    1 ≤ (wait_for_file probe timeout interval).2 := by
  show 1 ≤ (waitLoop probe timeout interval (timeout + 1) 0 0).2
  simp only [waitLoop, if_pos (show 0 < timeout from ht)]
  rcases hp : probe 0 with _ | _ | m <;> simp only []
  · exact Nat.le_refl 1
  · exact waitLoop_snd_ge probe timeout interval timeout (0 + interval) 1
  · exact Nat.le_refl 1

lemma download_events (w : World) (st : HState) (key localPath : String) :
    (download_file_from_s3 w st key localPath).1.events = st.events := by
  unfold download_file_from_s3
  rcases h : w.download key with _ | m <;> simp [h]

lemma download_no_hang (w : World) (st : HState) (key localPath : String) :
    (download_file_from_s3 w st key localPath).2 ≠ some Err.hang := by
  unfold download_file_from_s3
  rcases h : w.download key with _ | m <;> simp [h]

lemma stage_asset_events (w : World) (st : HState) (key localPath failMsg : String) :
    (stage_asset w st key localPath failMsg).1.events = st.events := by
  unfold stage_asset
  rcases h : (wait_for_file (w.probe key) 10 5).1 with b | m
  · cases b
    · simp
    · simp [download_events]
  · simp
  · simp

lemma stage_asset_no_hang (w : World) (st : HState) (key localPath failMsg : String) :
    (stage_asset w st key localPath failMsg).2 ≠ some Err.hang := by
  unfold stage_asset
  rcases h : (wait_for_file (w.probe key) 10 5).1 with b | m
  · cases b
    · simp
    · simp [download_no_hang]
  · simp
  · exact absurd h (wait_for_file_no_diverge (w.probe key) 10 5 (by omega))

lemma process_files_events (w : World) (st : HState) (outp : String) :
    (process_files w st outp).1.events = st.events := by
  unfold process_files
  rcases h : w.mixOk <;> rcases h2 : w.master with _ | m <;> simp [h, h2]

lemma process_files_no_hang (w : World) (st : HState) (outp : String) :
    (process_files w st outp).2 ≠ some Err.hang := by
  unfold process_files
  rcases h : w.mixOk <;> rcases h2 : w.master with _ | m <;> simp [h, h2]

lemma upload_events (w : World) (st : HState) (lf key : String) :
    (upload_file_to_s3 w st lf key).1.events = st.events := by
  unfold upload_file_to_s3
  rcases h : w.upload with _ | m <;> simp [h]

lemma upload_no_hang (w : World) (st : HState) (lf key : String) :
    (upload_file_to_s3 w st lf key).2 ≠ some Err.hang := by
  unfold upload_file_to_s3
  rcases h : w.upload with _ | m <;> simp [h]


/-- Case-analysis principle for `andThen`, mirroring Python statement
sequencing: a property of the composite follows from the two cases of the
first step's outcome. -/
lemma andThen_spec (p : HState × Option Err) (f : HState → HState × Option Err)
    (P : HState × Option Err → Prop)
    (hok : ∀ st, p = (st, none) → P (f st))
    (herr : ∀ st e, p = (st, some e) → P (st, some e)) :
    P (andThen p f) := by
  rcases p with ⟨st, e⟩
  cases e with
  | none => exact hok st rfl
  | some e => exact herr st e rfl

/-- The property established for the post-start pipeline: the events grow
by exactly the end event when it succeeds and not at all when it raises,
and it never hangs. -/
def PipeProp (base : List StatusEvent) (endEv : StatusEvent)
    (res : HState × Option Err) : Prop :=
  res.1.events = base ++ (if res.2 = none then [endEv] else []) ∧
    res.2 ≠ some Err.hang

lemma pipelineAfterStart_spec (w : World)
    (a1 b1 c1 a2 b2 c2 a3 b3 c3 outp upkey : String)
    (sid : Option Int) (endfn : String) (st : HState) :
    PipeProp st.events ⟨sid, "matchering", "end", some endfn, none⟩
      (pipelineAfterStart w a1 b1 c1 a2 b2 c2 a3 b3 c3 outp upkey sid endfn st) := by
  unfold pipelineAfterStart
  apply andThen_spec
  · intro s1 h1
    have he1 : s1.events = st.events := by
      have h := stage_asset_events w st a1 b1 c1; rw [h1] at h; exact h
    apply andThen_spec
    · intro s2 h2
      have he2 : s2.events = st.events := by
        have h := stage_asset_events w s1 a2 b2 c2; rw [h2] at h; rw [h, he1]
      apply andThen_spec
      · intro s3 h3
        have he3 : s3.events = st.events := by
          have h := stage_asset_events w s2 a3 b3 c3; rw [h3] at h; rw [h, he2]
        apply andThen_spec
        · intro s4 h4
          have he4 : s4.events = st.events := by
            have h := process_files_events w s3 outp; rw [h4] at h; rw [h, he3]
          apply andThen_spec
          · intro s5 h5
            have he5 : s5.events = st.events := by
              have h := upload_events w s4 outp upkey; rw [h5] at h; rw [h, he4]
            simp [PipeProp, notify_system_api, he5]
          · intro s5 e h5
            have he5 : s5.events = st.events := by
              have h := upload_events w s4 outp upkey; rw [h5] at h; rw [h, he4]
            have hn : e ≠ Err.hang := by
              intro hc; subst hc
              have h := upload_no_hang w s4 outp upkey; rw [h5] at h; exact h rfl
            simp [PipeProp, he5, hn]
        · intro s4 e h4
          have he4 : s4.events = st.events := by
            have h := process_files_events w s3 outp; rw [h4] at h; rw [h, he3]
          have hn : e ≠ Err.hang := by
            intro hc; subst hc
            have h := process_files_no_hang w s3 outp; rw [h4] at h; exact h rfl
          simp [PipeProp, he4, hn]
      · intro s3 e h3
        have he3 : s3.events = st.events := by
          have h := stage_asset_events w s2 a3 b3 c3; rw [h3] at h; rw [h, he2]
        have hn : e ≠ Err.hang := by
          intro hc; subst hc
          have h := stage_asset_no_hang w s2 a3 b3 c3; rw [h3] at h; exact h rfl
        simp [PipeProp, he3, hn]
    · intro s2 e h2
      have he2 : s2.events = st.events := by
        have h := stage_asset_events w s1 a2 b2 c2; rw [h2] at h; rw [h, he1]
      have hn : e ≠ Err.hang := by
        intro hc; subst hc
        have h := stage_asset_no_hang w s1 a2 b2 c2; rw [h2] at h; exact h rfl
      simp [PipeProp, he2, hn]
  · intro s1 e h1
    have he1 : s1.events = st.events := by
      have h := stage_asset_events w st a1 b1 c1; rw [h1] at h; exact h
    have hn : e ≠ Err.hang := by
      intro hc; subst hc
      have h := stage_asset_no_hang w st a1 b1 c1; rw [h1] at h; exact h rfl
    simp [PipeProp, he1, hn]

lemma get_dynamic_no_hang (t : Int) (e : Err)
    (h : get_dynamic_s3_paths t = .error e) : e ≠ Err.hang := by
  unfold get_dynamic_s3_paths at h
  rcases ht : TRACK_FILENAMES t with _ | f
  · rw [ht] at h
    simp only [Except.error.injEq] at h
    intro hc; subst hc; simp at h
  · rw [ht] at h
    by_cases hf : f = "" <;> simp [hf] at h
    intro hc; subst hc; simp at h

lemma pipeline_tail_of_start (w : World)
    (a1 b1 c1 a2 b2 c2 a3 b3 c3 outp upkey : String)
    (sid : Option Int) (endfn : String) (st0 : HState) (base : List StatusEvent)
    (hst : st0.events = base ++ [⟨sid, "matchering", "start", none, none⟩]) :
    ∃ tail,
      (pipelineAfterStart w a1 b1 c1 a2 b2 c2 a3 b3 c3 outp upkey sid endfn st0).1.events
        = base ++ tail ∧
      countAction tail "error" = 0 ∧
      countAction tail "start" ≤ 1 ∧
      ((pipelineAfterStart w a1 b1 c1 a2 b2 c2 a3 b3 c3 outp upkey sid endfn st0).2 = none →
        countAction tail "end" = 1) ∧
      ((pipelineAfterStart w a1 b1 c1 a2 b2 c2 a3 b3 c3 outp upkey sid endfn st0).2 ≠ none →
        countAction tail "end" = 0) ∧
      (pipelineAfterStart w a1 b1 c1 a2 b2 c2 a3 b3 c3 outp upkey sid endfn st0).2 ≠
        some Err.hang := by
  obtain ⟨hev, hnh⟩ :=
    pipelineAfterStart_spec w a1 b1 c1 a2 b2 c2 a3 b3 c3 outp upkey sid endfn st0
  rcases hres : (pipelineAfterStart w a1 b1 c1 a2 b2 c2 a3 b3 c3 outp upkey sid endfn st0).2
    with _ | e
  · rw [hres] at hev
    simp only [if_pos rfl] at hev
    refine ⟨[⟨sid, "matchering", "start", none, none⟩,
             ⟨sid, "matchering", "end", some endfn, none⟩], ?_, ?_, ?_, ?_, ?_, ?_⟩
    · rw [hev, hst]; simp
    · simp [countAction]
    · simp [countAction]
    · intro _; simp [countAction]
    · intro hc; exact absurd rfl hc
    · simp
  · rw [hres] at hev
    simp at hev
    refine ⟨[⟨sid, "matchering", "start", none, none⟩], ?_, ?_, ?_, ?_, ?_, ?_⟩
    · rw [hev, hst]
    · simp [countAction]
    · simp [countAction]
    · intro hc; exact Option.noConfusion hc
    · intro _; simp [countAction]
    · rw [hres] at hnh; exact hnh

lemma handleRecord_spec (w : World) (st : HState) (r : JobRecord) :
    ∃ tail, (handleRecord w st r).1.events = st.events ++ tail ∧
      countAction tail "error" = 0 ∧
      countAction tail "start" ≤ 1 ∧
      ((handleRecord w st r).2 = none → countAction tail "end" = 1) ∧
      ((handleRecord w st r).2 ≠ none → countAction tail "end" = 0) ∧
      (handleRecord w st r).2 ≠ some Err.hang := by
  rcases r with ⟨body⟩
  rcases body with m | ⟨sid, fn, tid⟩
  · refine ⟨[], ?_, ?_, ?_, ?_, ?_, ?_⟩ <;> simp [handleRecord, countAction]
  · rcases tid with _ | t
    · refine ⟨[], ?_, ?_, ?_, ?_, ?_, ?_⟩ <;> simp [handleRecord, countAction]
    · by_cases ht : t = 0
      · refine ⟨[], ?_, ?_, ?_, ?_, ?_, ?_⟩ <;> simp [handleRecord, ht, countAction]
      · rcases hg : get_dynamic_s3_paths t with e | instrKey
        · have hne := get_dynamic_no_hang t e hg
          refine ⟨[], ?_, ?_, ?_, ?_, ?_, ?_⟩ <;>
            simp [handleRecord, ht, hg, countAction, hne]
        · by_cases hk : instrKey = ""
          · refine ⟨[], ?_, ?_, ?_, ?_, ?_, ?_⟩ <;>
              simp [handleRecord, ht, hg, hk, countAction]
          · simp only [handleRecord, ht, hg, hk, if_neg, ite_false]
            apply pipeline_tail_of_start
            simp [notify_system_api]

lemma handleRecords_spec (w : World) : ∀ (recs : List JobRecord) (st : HState),
    ∃ tail, (handleRecords w st recs).1.events = st.events ++ tail ∧
      countAction tail "error" = 0 ∧
      (handleRecords w st recs).2 ≠ some Err.hang := by
  intro recs
  induction recs with
  | nil =>
      intro st
      exact ⟨[], by simp [handleRecords], by simp [countAction], by simp [handleRecords]⟩
  | cons r rs ih =>
      intro st
      obtain ⟨tail1, hev1, herr1, _, _, _, hnh1⟩ := handleRecord_spec w st r
      rcases hr : handleRecord w st r with ⟨s1, e1⟩
      rw [hr] at hev1 hnh1
      cases e1 with
      | some e =>
          refine ⟨tail1, ?_, herr1, ?_⟩
          · simp only [handleRecords, hr]; exact hev1
          · simp only [handleRecords, hr]; exact hnh1
      | none =>
          obtain ⟨tail2, hev2, herr2, hnh2⟩ := ih s1
          refine ⟨tail1 ++ tail2, ?_, ?_, ?_⟩
          · simp only [handleRecords, hr]
            rw [hev2, hev1, List.append_assoc]
          · rw [countAction_append, herr1, herr2]
          · simp only [handleRecords, hr]; exact hnh2

lemma handleRecords_single (w : World) (st : HState) (r : JobRecord) :
    handleRecords w st [r] = handleRecord w st r := by
  rcases hr : handleRecord w st r with ⟨s1, e1⟩
  cases e1 <;> simp [handleRecords, hr]

lemma lambda_handler_ok (w : World) (recs : List JobRecord) (st1 : HState)
    (h : handleRecords w initState recs = (st1, none)) :
    lambda_handler w recs =
      { completed := true, st := { st1 with fs := cleanup w st1.fs } } := by
  unfold lambda_handler; rw [h]

lemma lambda_handler_err (w : World) (recs : List JobRecord) (st1 : HState) (e : Err)
    (h : handleRecords w initState recs = (st1, some e)) (hne : e ≠ Err.hang) :
    lambda_handler w recs =
      { completed := true,
        st := { st1 with
          events := st1.events ++
            [⟨st1.song_id, "matchering", "error", none, some e.msg⟩],
          fs := cleanup w st1.fs } } := by
  unfold lambda_handler; rw [h]
  cases e with
  | hang => exact absurd rfl hne
  | valueError m => rfl
  | exception m => rfl
  | clientError m => rfl

/-- C7: for every pair of vocals and instrumental buffers, the mixed
output's duration equals the instrumental duration exactly — shorter vocals
are padded with trailing silence, longer vocals are truncated — and within
that duration the overlay combines the (adjusted) vocals and the
instrumental sample-wise. -/
theorem C7_mix_duration_policy (v i : AudioSegment) :
    (mix_tracks v i).len = i.len ∧
    ∀ t, t < i.len →
      (mix_tracks v i).samp t = (if t < v.len then v.samp t else 0) + i.samp t := by
  unfold mix_tracks
  rcases Nat.lt_trichotomy v.len i.len with h | h | h
  · rw [if_pos h]
    simp only [AudioSegment.overlay, AudioSegment.append, AudioSegment.silent]
    constructor
    · omega
    · intro t htl
      have hc : t < min (v.len + (i.len - v.len)) i.len := by omega
      rw [if_pos hc]
  · rw [if_neg (by omega), if_neg (by omega)]
    simp only [AudioSegment.overlay]
    constructor
    · omega
    · intro t htl
      have hc : t < min v.len i.len := by omega
      rw [if_pos hc, if_pos (by omega)]
  · rw [if_neg (by omega), if_pos h]
    simp only [AudioSegment.overlay, AudioSegment.take]
    constructor
    · omega
    · intro t htl
      have hc : t < min (min i.len v.len) i.len := by omega
      rw [if_pos hc, if_pos (by omega)]

/-- Concrete vocals buffer (2 ms of amplitude 3) used to witness C7. -/
def vShort : AudioSegment := ⟨2, fun _ => 3⟩

/-- Concrete instrumental buffer (5 ms of amplitude 10) used to witness C7. -/
def iLong : AudioSegment := ⟨5, fun _ => 10⟩

/-- Witness for C7 at concrete buffers: duration 5, overlap sample 13,
padded-region sample 10. -/
theorem C7_mix_duration_policy_witness :
    (mix_tracks vShort iLong).len = iLong.len ∧
    (mix_tracks vShort iLong).samp 0 =
      (if 0 < vShort.len then vShort.samp 0 else 0) + iLong.samp 0 ∧
    (mix_tracks vShort iLong).samp 3 =
      (if 3 < vShort.len then vShort.samp 3 else 0) + iLong.samp 3 := by
  obtain ⟨h1, h2⟩ := C7_mix_duration_policy vShort iLong
  exact ⟨h1, h2 0 (by decide), h2 3 (by decide)⟩

/-- C3 counterexample: with `timeout = 0` the loop body never runs — zero
probes are performed even though the object exists (every probe would
succeed) — so `wait_for_file` does not "perform at least one probe even for
the smallest timeout"; it returns false without probing. -/
theorem C3_counterexample :
    wait_for_file (fun _ => Probe.found) 0 5 = (WaitResult.ret false, 0) := rfl

/-- C3 as amended: for every positive timeout and positive poll interval,
`wait_for_file` performs at least one probe, returns true iff some probe at
a poll instant strictly before the timeout finds the object (given that no
probe raises a non-404 error), and when no such probe finds it the function
returns false rather than raising. -/
theorem C3_amended (probe : Nat → Probe) (timeout interval : Nat)
    (ht : 1 ≤ timeout) (hi : 1 ≤ interval)
    (hne : ∀ k m, probe k ≠ Probe.clientError m) :
    1 ≤ (wait_for_file probe timeout interval).2 ∧
    ((wait_for_file probe timeout interval).1 = WaitResult.ret true ↔
      ∃ j, j * interval < timeout ∧ probe j = Probe.found) ∧
    ((∀ j, j * interval < timeout → probe j ≠ Probe.found) →
      (wait_for_file probe timeout interval).1 = WaitResult.ret false) := by
  have hfuel := wait_for_file_fuel_ok timeout interval hi
  have hiff := waitLoop_ret_true_iff probe timeout interval hne (timeout + 1) 0 hfuel
  have hshape := waitLoop_ret_shape probe timeout interval hne (timeout + 1) 0 hfuel
  rw [Nat.zero_mul] at hiff hshape
  have hiff' : (wait_for_file probe timeout interval).1 = WaitResult.ret true ↔
      ∃ j, j * interval < timeout ∧ probe j = Probe.found := by
    rw [show (wait_for_file probe timeout interval).1 =
        (waitLoop probe timeout interval (timeout + 1) 0 0).1 from rfl, hiff]
    constructor
    · rintro ⟨j, _, hjt, hjf⟩; exact ⟨j, hjt, hjf⟩
    · rintro ⟨j, hjt, hjf⟩; exact ⟨j, Nat.zero_le j, hjt, hjf⟩
  refine ⟨wait_for_file_probes_pos probe timeout interval ht, hiff', ?_⟩
  intro hnone
  obtain ⟨b, hb⟩ := hshape
  have hb' : (wait_for_file probe timeout interval).1 = WaitResult.ret b := hb
  cases b with
  | true =>
      obtain ⟨j, hjt, hjf⟩ := hiff'.mp hb'
      exact absurd hjf (hnone j hjt)
  | false => exact hb'

/-- Probe sequence used to witness C3: not found on the first attempt,
found on the second. -/
def probeSecond : Nat → Probe := fun k => if k = 1 then Probe.found else Probe.notFound

/-- Witness for C3 as amended at `timeout = 10`, `interval = 5`: at least
one probe happens and the call returns true (the second probe, at elapsed
time 5 < 10, finds the object). -/
theorem C3_amended_witness :
    1 ≤ (wait_for_file probeSecond 10 5).2 ∧
    (wait_for_file probeSecond 10 5).1 = WaitResult.ret true := by
  have h := C3_amended probeSecond 10 5 (by decide) (by decide)
    (by intro k m; unfold probeSecond; by_cases hk : k = 1 <;> simp [hk])
  exact ⟨h.1, h.2.1.mpr ⟨1, by decide, rfl⟩⟩

/-- C1 (violated by the code): on a fully successful Job (songID 42,
fileName v42.wav, trackID 2, all assets available, all operations succeed)
the handler finishes with two residual local staging files —
`/tmp/vocals_42.wav` and `/tmp/final_song_42.wav` — because the cleanup
loop iterates over the module globals `LOCAL_VOCALS_PATH` and
`LOCAL_FINAL_FILE`, which are `None` and never reassigned, instead of the
handler's local variables; only the reference and instrumental files are
deleted. -/
theorem C1_residual_staging_files :
    (lambda_handler allGood [mkRecord (some 42) (some "v42.wav") (some 2)]).st.fs =
      ["/tmp/vocals_42.wav", "/tmp/final_song_42.wav"] ∧
    (lambda_handler allGood [mkRecord (some 42) (some "v42.wav") (some 2)]).st.events =
      [⟨some 42, "matchering", "start", none, none⟩,
       ⟨some 42, "matchering", "end", some "final_song_42_2.wav", none⟩] :=
  ⟨rfl, rfl⟩

/-- C4 counterexample: trackID 0 is not a key of `TRACK_FILENAMES`, yet the
Job is not resolved through the catalog at all: it fails on the
missing-trackID path with `Region or track ID is missing.` and zero catalog
lookups, not with the UnknownTrack failure (`Invalid trackID: 0`) that the
claim asserts for every unmapped trackID. -/
theorem C4_counterexample :
    TRACK_FILENAMES 0 = none ∧
    (lambda_handler allGood [mkRecord (some 4) (some "x.wav") (some 0)]).st.events =
      [⟨some 4, "matchering", "error", none,
        some "Region or track ID is missing."⟩] ∧
    (lambda_handler allGood
        [mkRecord (some 4) (some "x.wav") (some 0)]).st.catalogLookups = 0 :=
  ⟨rfl, rfl, rfl⟩

/-- C4 as amended: for every environment and every Job whose trackID is
present, nonzero, and not a key of `TRACK_FILENAMES`, resolution raises
`Invalid trackID: {t}` after exactly one catalog lookup, no download is
attempted, exactly one error StatusEvent is emitted, and the handler
completes cleanly.  (A trackID of 0, though also unmapped, is instead
rejected on the missing-trackID path before the catalog is consulted.) -/
theorem C4_amended (w : World) (s : Option Int) (fn : Option String) (t : Int)
    (ht0 : t ≠ 0) (htc : TRACK_FILENAMES t = none) :
    lambda_handler w [mkRecord s fn (some t)] =
      { completed := true,
        st := { song_id := s, instrPath := none,
                events := [⟨s, "matchering", "error", none,
                  some ("Invalid trackID: " ++ toString t)⟩],
                fs := [], downloads := [], uploads := [], catalogLookups := 1 } } := by
  have hg : get_dynamic_s3_paths t =
      .error (.valueError ("Invalid trackID: " ++ toString t)) := by
    unfold get_dynamic_s3_paths; rw [htc]
  have hr : handleRecord w initState (mkRecord s fn (some t)) =
      ({ song_id := s, instrPath := none, events := [], fs := [],
         downloads := [], uploads := [], catalogLookups := 1 },
       some (Err.valueError ("Invalid trackID: " ++ toString t))) := by
    simp [handleRecord, mkRecord, ht0, hg, initState]
  have hh : handleRecords w initState [mkRecord s fn (some t)] =
      ({ song_id := s, instrPath := none, events := [], fs := [],
         downloads := [], uploads := [], catalogLookups := 1 },
       some (Err.valueError ("Invalid trackID: " ++ toString t))) := by
    rw [handleRecords_single, hr]
  rw [lambda_handler_err w [mkRecord s fn (some t)] _ _ hh
    (fun hc => Err.noConfusion hc)]
  rfl

/-- Witness for C4 as amended at the concrete unmapped trackID 9. -/
theorem C4_amended_witness :
    lambda_handler allGood [mkRecord (some 4) (some "x.wav") (some 9)] =
      { completed := true,
        st := { song_id := some 4, instrPath := none,
                events := [⟨some 4, "matchering", "error", none,
                  some ("Invalid trackID: " ++ toString (9 : Int))⟩],
                fs := [], downloads := [], uploads := [], catalogLookups := 1 } } :=
  C4_amended allGood (some 4) (some "x.wav") 9 (by decide) rfl

/-- C9: a Job whose trackID is present but `0` (falsy in Python) is rejected
on the missing-trackID path with message `Region or track ID is missing.`,
with zero catalog lookups (the catalog is never consulted), no downloads,
and a clean exit — it is not treated as an unmapped trackID. -/
theorem C9_falsy_trackID (w : World) (s : Option Int) (fn : Option String) :
    lambda_handler w [mkRecord s fn (some 0)] =
      { completed := true,
        st := { song_id := s, instrPath := none,
                events := [⟨s, "matchering", "error", none,
                  some "Region or track ID is missing."⟩],
                fs := [], downloads := [], uploads := [], catalogLookups := 0 } } := rfl

/-- C5 counterexample: a Job with a valid trackID but no fileName is NOT
rejected with an InvalidJob failure — the pipeline proceeds to asset
staging (three downloads, with vocals key `utau_inference/None`) and even
completes successfully, emitting start and end with no error event. -/
theorem C5_counterexample :
    (lambda_handler allGood [mkRecord (some 7) none (some 2)]).st.downloads =
      [("static/audio/reference.wav", "/tmp/reference.wav"),
       ("static/audio/norteno_track2.wav", "/tmp/instrumental.wav"),
       ("utau_inference/None", "/tmp/vocals_7.wav")] ∧
    (lambda_handler allGood [mkRecord (some 7) none (some 2)]).st.events =
      [⟨some 7, "matchering", "start", none, none⟩,
       ⟨some 7, "matchering", "end", some "final_song_7_2.wav", none⟩] :=
  ⟨rfl, rfl⟩

/-- C5 as amended: a missing trackID fails with `Region or track ID is
missing.` before any staging, in every environment; but fileName is never
validated — a Job with a valid trackID and missing fileName proceeds to
asset staging (using vocals key `utau_inference/None`) with no error
event. -/
theorem C5_amended :
    (∀ (w : World) (s : Option Int) (fn : Option String),
      lambda_handler w [mkRecord s fn none] =
        { completed := true,
          st := { song_id := s, instrPath := none,
                  events := [⟨s, "matchering", "error", none,
                    some "Region or track ID is missing."⟩],
                  fs := [], downloads := [], uploads := [], catalogLookups := 0 } }) ∧
    ((lambda_handler allGood [mkRecord (some 7) none (some 2)]).st.downloads ≠ [] ∧
      countAction
        (lambda_handler allGood [mkRecord (some 7) none (some 2)]).st.events
        "error" = 0) :=
  ⟨fun _ _ _ => rfl, by decide, by decide⟩

/-- C8 counterexample: two Jobs with different songIDs (1 and 2) both stage
the reference asset at the same fixed local path `/tmp/reference.wav` — the
reference (and instrumental) staging paths are not keyed by songID. -/
theorem C8_counterexample :
    ((lambda_handler allGood [mkRecord (some 1) (some "a.wav") (some 1)]).st.downloads.head?
        = some ("static/audio/reference.wav", "/tmp/reference.wav")) ∧
    ((lambda_handler allGood [mkRecord (some 2) (some "b.wav") (some 1)]).st.downloads.head?
        = some ("static/audio/reference.wav", "/tmp/reference.wav")) ∧
    (1 : Int) ≠ 2 :=
  ⟨rfl, rfl, by decide⟩

/-- C8 as amended: only the vocals and final-output staging paths are keyed
by the Job's songID (`/tmp/vocals_{songID}.wav`,
`/tmp/final_song_{songID}.wav`); the reference and instrumental staging
paths are the fixed constants `LOCAL_REFERENCE_PATH` and
`LOCAL_INSTRUMENTAL_PATH` shared by every Job. -/
theorem C8_amended (s : Int) (fn : String) :
    (lambda_handler allGood [mkRecord (some s) (some fn) (some 2)]).st.downloads =
      [(LAMBDA_STATIC_REFERENCE_WAV_PATH, LOCAL_REFERENCE_PATH),
       ("static/audio/norteno_track2.wav", LOCAL_INSTRUMENTAL_PATH),
       ("utau_inference/" ++ fn, "/tmp/vocals_" ++ toString s ++ ".wav")] ∧
    (lambda_handler allGood [mkRecord (some s) (some fn) (some 2)]).st.uploads =
      [("/tmp/final_song_" ++ toString s ++ ".wav",
        "matchering/final_song_" ++ toString s ++ "_" ++ toString (2 : Int) ++ ".wav")] :=
  ⟨rfl, rfl⟩

/-- C2 counterexample: a Job whose trackID is missing emits NO start event
at all — only one error event — so "exactly one start StatusEvent per Job"
fails on the code. -/
theorem C2_counterexample :
    countAction (lambda_handler allGood
      [mkRecord (some 5) (some "f.wav") none]).st.events "start" = 0 ∧
    countAction (lambda_handler allGood
      [mkRecord (some 5) (some "f.wav") none]).st.events "error" = 1 := by
  decide

/-- C2 as amended: for every single-Job invocation, in every environment,
at most one start event is emitted (none when the Job fails before track
resolution completes) and exactly one terminal event is emitted — an end
event on success, an error event on failure, never both and never
neither. -/
theorem C2_amended (w : World) (r : JobRecord) :
    countAction (lambda_handler w [r]).st.events "start" ≤ 1 ∧
    countAction (lambda_handler w [r]).st.events "end" +
      countAction (lambda_handler w [r]).st.events "error" = 1 := by
  obtain ⟨tail, hev, herr, hstart, hend1, hend0, hnh⟩ := handleRecord_spec w initState r
  rcases hr : handleRecord w initState r with ⟨s1, e1⟩
  rw [hr] at hev hnh hend1 hend0
  have hsingle := handleRecords_single w initState r
  cases e1 with
  | none =>
      have hh : handleRecords w initState [r] = (s1, none) := by rw [hsingle, hr]
      have hevents : (lambda_handler w [r]).st.events = tail := by
        rw [lambda_handler_ok w [r] s1 hh]
        simpa [initState] using hev
      rw [hevents]
      exact ⟨hstart, by rw [hend1 rfl, herr]⟩
  | some e =>
      have he : e ≠ Err.hang := fun hc => hnh (by rw [hc])
      have hh : handleRecords w initState [r] = (s1, some e) := by rw [hsingle, hr]
      have hev' : s1.events = tail := by simpa [initState] using hev
      have hevents : (lambda_handler w [r]).st.events =
          tail ++ [⟨s1.song_id, "matchering", "error", none, some e.msg⟩] := by
        rw [lambda_handler_err w [r] s1 e hh he]
        simp [hev']
      rw [hevents]
      constructor
      · rw [countAction_append]
        have h0 : countAction
            [⟨s1.song_id, "matchering", "error", none, some e.msg⟩] "start" = 0 := by
          simp [countAction]
        omega
      · rw [countAction_append, countAction_append]
        have h1 : countAction
            [⟨s1.song_id, "matchering", "error", none, some e.msg⟩] "end" = 0 := by
          simp [countAction]
        have h2 : countAction
            [⟨s1.song_id, "matchering", "error", none, some e.msg⟩] "error" = 1 := by
          simp [countAction]
        have h3 : countAction tail "end" = 0 := hend0 (by simp)
        rw [h1, h2, h3, herr]

/-- C6: for every environment and every record list (the envelope being
readable), the invocation completes — no exception escapes the handler —
and whenever the record loop raises, the escaping exception is converted
into exactly one trailing error StatusEvent carrying the current song_id
and str(e), after which cleanup still runs (the result is produced through
the cleanup of the final state). -/
theorem C6_no_crash_propagation (w : World) (recs : List JobRecord) :
    (lambda_handler w recs).completed = true ∧
    (∀ st1 e, handleRecords w initState recs = (st1, some e) →
      (lambda_handler w recs).st.events =
        st1.events ++ [⟨st1.song_id, "matchering", "error", none, some e.msg⟩] ∧
      (lambda_handler w recs).st.fs =
        cleanup w st1.fs) := by
  obtain ⟨tail, hev, herr, hnh⟩ := handleRecords_spec w recs initState
  rcases hh : handleRecords w initState recs with ⟨st1, e1⟩
  rw [hh] at hnh
  cases e1 with
  | none =>
      refine ⟨by rw [lambda_handler_ok w recs st1 hh], ?_⟩
      intro st' e' hcon
      exact absurd hcon (by simp)
  | some e =>
      have he : e ≠ Err.hang := fun hc => hnh (by rw [hc])
      refine ⟨by rw [lambda_handler_err w recs st1 e hh he], ?_⟩
      intro st' e' hcon
      have h1 : st' = st1 := by
        have := congrArg Prod.fst hcon; exact this.symm
      have h2 : e' = e := by
        have := congrArg Prod.snd hcon
        simp at this; exact this.symm
      subst h1; subst h2
      rw [lambda_handler_err w recs st' e' hh he]
      exact ⟨rfl, rfl⟩

/-- Witness for C6: a batch whose only record has an unparseable body
completes with one error event (message str of the JSONDecodeError) and
runs cleanup on the untouched filesystem. -/
theorem C6_witness :
    (lambda_handler allGood [⟨.error "boom"⟩]).completed = true ∧
    (lambda_handler allGood [⟨.error "boom"⟩]).st.events =
      initState.events ++ [⟨initState.song_id, "matchering", "error", none,
        some (Err.valueError "boom").msg⟩] := by
  have h := C6_no_crash_propagation allGood [⟨.error "boom"⟩]
  exact ⟨h.1, (h.2 initState (Err.valueError "boom") rfl).1⟩

/-- C10 counterexample: in a two-record batch whose first Job succeeds
(songID 1) and whose second record has an unparseable body, the single
error event carries `songID = 1` — the PREVIOUS record's songID — not the
failing record's songID and not 0, refuting the claim's "carrying the
songID of the failing record, or 0 if no songID was parsed". -/
theorem C10_counterexample :
    (lambda_handler allGood
        [mkRecord (some 1) (some "a.wav") (some 1), ⟨.error "bad json"⟩]).st.events =
      [⟨some 1, "matchering", "start", none, none⟩,
       ⟨some 1, "matchering", "end", some "final_song_1_1.wav", none⟩,
       ⟨some 1, "matchering", "error", none, some "bad json"⟩] := rfl

/-- C10 as amended: a failure while processing any record aborts all
subsequent records of the batch, and the whole invocation emits exactly one
error StatusEvent when the loop raised and none otherwise; that event
carries the handler's current `song_id` — the most recently parsed value,
which is the initial 0 when no body was ever parsed, and the previous
record's songID when the failing record's body was unparseable (the
emitted-event shape is in the error-branch equation of `lambda_handler`,
cf. `lambda_handler_err`). -/
theorem C10_amended :
    (∀ (w : World) (st : HState) (r : JobRecord) (rs : List JobRecord)
        (st1 : HState) (e : Err), handleRecord w st r = (st1, some e) →
        handleRecords w st (r :: rs) = (st1, some e)) ∧
    (∀ (w : World) (recs : List JobRecord),
      countAction (lambda_handler w recs).st.events "error" =
        if (handleRecords w initState recs).2 = none then 0 else 1) := by
  constructor
  · intro w st r rs st1 e h
    simp [handleRecords, h]
  · intro w recs
    obtain ⟨tail, hev, herr, hnh⟩ := handleRecords_spec w recs initState
    rcases hh : handleRecords w initState recs with ⟨st1, e1⟩
    rw [hh] at hev hnh
    cases e1 with
    | none =>
        rw [lambda_handler_ok w recs st1 hh]
        have hev' : st1.events = tail := by simpa [initState] using hev
        simp [hev', herr]
    | some e =>
        have he : e ≠ Err.hang := fun hc => hnh (by rw [hc])
        rw [lambda_handler_err w recs st1 e hh he]
        have hev' : st1.events = tail := by simpa [initState] using hev
        have h2 : countAction
            [⟨st1.song_id, "matchering", "error", none, some e.msg⟩] "error" = 1 := by
          simp [countAction]
        simp only []
        rw [countAction_append, hev', herr, h2]
        simp

/-- Witness for C10 as amended: a batch whose first record is unparseable
aborts before its second (valid) record and the invocation emits exactly
one error event. -/
theorem C10_amended_witness :
    handleRecords allGood initState
        [⟨.error "nope"⟩, mkRecord (some 3) (some "c.wav") (some 3)] =
      (initState, some (Err.valueError "nope")) ∧
    countAction (lambda_handler allGood
        [⟨.error "nope"⟩, mkRecord (some 3) (some "c.wav") (some 3)]).st.events
      "error" = 1 := by
  have h := C10_amended
  refine ⟨h.1 allGood initState ⟨.error "nope"⟩
      [mkRecord (some 3) (some "c.wav") (some 3)] initState
      (Err.valueError "nope") rfl, ?_⟩
  rw [h.2 allGood [⟨.error "nope"⟩, mkRecord (some 3) (some "c.wav") (some 3)]]
  rfl
